import Mathlib

set_option maxRecDepth 10000

/-!
Verification development for the `tcs-forecast-agent` repository.

The embedded core is `ForecastOrchestrator` from `src/agent/orchestrator.py`:
the sequential tool-orchestration pipeline (`generate_forecast`), the
transcript sub-query selector (`_extract_transcript_query`) and the layered
JSON output-recovery cascade (`_extract_json`).  JSON values are modelled by
an inductive `Json` type with rational numbers standing for Python's
int/float JSON numbers; Python's `json.loads` is modelled by the strict JSON
parser `jsonLoads` below (the non-standard `Infinity`/`NaN` extensions and
astral-plane escape pairing are outside the modelled input space).
-/

namespace TcsForecast

/-- A JSON value, as produced by a strict JSON parse. -/
inductive Json where
  | null : Json
  | bool : Bool → Json
  | num : Rat → Json
  | str : String → Json
  | arr : List Json → Json
  | obj : List (String × Json) → Json

/-- JSON insignificant whitespace (the four characters the JSON grammar and
Python's `json` scanner skip between tokens). -/
def isJsonWs (c : Char) : Bool :=
  c = ' ' || c = '\t' || c = '\n' || c = '\r'

/-- Drop leading JSON whitespace. -/
def skipWs : List Char → List Char
  | [] => []
  | c :: cs => if isJsonWs c then skipWs cs else c :: cs

/-- Decimal digit test. -/
def isDigitC (c : Char) : Bool := '0' ≤ c && c ≤ '9'

/-- Value of a decimal digit. -/
def digitVal (c : Char) : Nat := c.toNat - 48

/-- Value of a hexadecimal digit, if any. -/
def hexVal (c : Char) : Option Nat :=
  if '0' ≤ c ∧ c ≤ '9' then some (c.toNat - 48)
  else if 'a' ≤ c ∧ c ≤ 'f' then some (c.toNat - 87)
  else if 'A' ≤ c ∧ c ≤ 'F' then some (c.toNat - 55)
  else none

/-- Numeric value of a list of decimal digits. -/
def digitsToNat (ds : List Char) : Nat :=
  ds.foldl (fun acc c => acc * 10 + digitVal c) 0

/-- Split off a maximal run of decimal digits. -/
def takeDigits (cs : List Char) : List Char × List Char :=
  (cs.takeWhile isDigitC, cs.dropWhile isDigitC)

/-- Body of a JSON string literal after the opening quote: standard escapes,
`\uXXXX` code points, and rejection of unescaped control characters
(mirroring `json.loads` in strict mode).  Returns the decoded string and the
remaining input after the closing quote. -/
def parseStrBody : List Char → List Char → Option (String × List Char)
  | [], _ => none
  | '"' :: rest, acc => some (String.mk acc.reverse, rest)
  | '\\' :: rest, acc =>
    match rest with
    | '"' :: r => parseStrBody r ('"' :: acc)
    | '\\' :: r => parseStrBody r ('\\' :: acc)
    | '/' :: r => parseStrBody r ('/' :: acc)
    | 'b' :: r => parseStrBody r ('\x08' :: acc)
    | 'f' :: r => parseStrBody r ('\x0c' :: acc)
    | 'n' :: r => parseStrBody r ('\n' :: acc)
    | 'r' :: r => parseStrBody r ('\r' :: acc)
    | 't' :: r => parseStrBody r ('\t' :: acc)
    | 'u' :: h1 :: h2 :: h3 :: h4 :: r =>
      match hexVal h1, hexVal h2, hexVal h3, hexVal h4 with
      | some a, some b, some c, some d =>
        parseStrBody r (Char.ofNat (((a * 16 + b) * 16 + c) * 16 + d) :: acc)
      | _, _, _, _ => none
    | _ => none
  | c :: rest, acc =>
    if c.toNat < 32 then none else parseStrBody rest (c :: acc)

/-- A JSON number (`-?(0|[1-9][0-9]*)(\.[0-9]+)?([eE][+-]?[0-9]+)?`) as a
rational, plus the remaining input. -/
def parseNumber (cs : List Char) : Option (Rat × List Char) :=
  let (neg, cs1) := match cs with
    | '-' :: r => (true, r)
    | _ => (false, cs)
  match takeDigits cs1 with
  | ([], _) => none
  | (ds, rest) =>
    if ds.head? = some '0' ∧ ds.length > 1 then none
    else
      let intPart : Rat := (digitsToNat ds : Nat)
      let afterFrac : Option (Rat × List Char) :=
        match rest with
        | '.' :: r =>
          match takeDigits r with
          | ([], _) => none
          | (fs, rest2) =>
            some (intPart + (digitsToNat fs : Rat) / ((10 : Rat) ^ fs.length), rest2)
        | _ => some (intPart, rest)
      match afterFrac with
      | none => none
      | some (base, rest2) =>
        let afterExp : Option (Rat × List Char) :=
          match rest2 with
          | 'e' :: r | 'E' :: r =>
            let (esign, r1) := match r with
              | '+' :: rr => (false, rr)
              | '-' :: rr => (true, rr)
              | _ => (false, r)
            match takeDigits r1 with
            | ([], _) => none
            | (es, rest3) =>
              let e := digitsToNat es
              some (if esign then base / ((10 : Rat) ^ e) else base * ((10 : Rat) ^ e), rest3)
          | _ => some (base, rest2)
        match afterExp with
        | none => none
        | some (v, rest3) => some (if neg then -v else v, rest3)

mutual

/-- Parse one JSON value (leading whitespace allowed), fuel-bounded. -/
def parseValue : Nat → List Char → Option (Json × List Char)
  | 0, _ => none
  | Nat.succ fuel, cs =>
    match skipWs cs with
    | [] => none
    | '"' :: rest => (parseStrBody rest []).map fun p => (Json.str p.1, p.2)
    | '{' :: rest => parseObjBody fuel rest
    | '[' :: rest => parseArrBody fuel rest
    | 't' :: 'r' :: 'u' :: 'e' :: rest => some (Json.bool true, rest)
    | 'f' :: 'a' :: 'l' :: 's' :: 'e' :: rest => some (Json.bool false, rest)
    | 'n' :: 'u' :: 'l' :: 'l' :: rest => some (Json.null, rest)
    | c :: rest =>
      if c = '-' ∨ isDigitC c then
        (parseNumber (c :: rest)).map fun p => (Json.num p.1, p.2)
      else none

/-- Parse an object body, positioned just after `{`. -/
def parseObjBody : Nat → List Char → Option (Json × List Char)
  | 0, _ => none
  | Nat.succ fuel, cs =>
    match skipWs cs with
    | '}' :: rest => some (Json.obj [], rest)
    | other => (parseMembers fuel other []).map fun p => (Json.obj p.1.reverse, p.2)

/-- Parse one or more `"key": value` members, positioned at a key. -/
def parseMembers : Nat → List Char → List (String × Json) →
    Option (List (String × Json) × List Char)
  | 0, _, _ => none
  | Nat.succ fuel, cs, acc =>
    match skipWs cs with
    | '"' :: rest =>
      match parseStrBody rest [] with
      | none => none
      | some (key, afterKey) =>
        match skipWs afterKey with
        | ':' :: afterColon =>
          match parseValue fuel afterColon with
          | none => none
          | some (v, afterVal) =>
            match skipWs afterVal with
            | ',' :: afterComma => parseMembers fuel afterComma ((key, v) :: acc)
            | '}' :: rest2 => some ((key, v) :: acc, rest2)
            | _ => none
        | _ => none
    | _ => none

/-- Parse an array body, positioned just after `[`. -/
def parseArrBody : Nat → List Char → Option (Json × List Char)
  | 0, _ => none
  | Nat.succ fuel, cs =>
    match skipWs cs with
    | ']' :: rest => some (Json.arr [], rest)
    | other => (parseElems fuel other []).map fun p => (Json.arr p.1.reverse, p.2)

/-- Parse one or more array elements, positioned at an element. -/
def parseElems : Nat → List Char → List Json → Option (List Json × List Char)
  | 0, _, _ => none
  | Nat.succ fuel, cs, acc =>
    match parseValue fuel cs with
    | none => none
    | some (v, afterVal) =>
      match skipWs afterVal with
      | ',' :: afterComma => parseElems fuel afterComma (v :: acc)
      | ']' :: rest => some (v :: acc, rest)
      | _ => none

end

/-- Model of Python's `json.loads` on a string: strict whole-input JSON
parse, `none` standing for a raised `json.JSONDecodeError`. -/
def jsonLoads (s : String) : Option Json :=
  match parseValue (2 * s.data.length + 2) s.data with
  | some (j, rest) => if skipWs rest = [] then some j else none
  | none => none

/-- Whitespace as matched by Python's `str.strip()` and the regex class
`\s` (ASCII range). -/
def isPyWs (c : Char) : Bool :=
  c = ' ' || c = '\t' || c = '\n' || c = '\r' || c = '\x0b' || c = '\x0c'

/-- Python's `text.strip()`. -/
def pyStrip (s : String) : String :=
  String.mk (((s.data.dropWhile isPyWs).reverse.dropWhile isPyWs).reverse)

/-- Python's `text[:n] if len(text) > n else text`. -/
def pyTruncate (n : Nat) (s : String) : String :=
  if s.data.length > n then String.mk (s.data.take n) else s

/-- Drop an expected literal character sequence from the front. -/
def dropPre : List Char → List Char → Option (List Char)
  | [], cs => some cs
  | _, [] => none
  | p :: ps, c :: cs => if p = c then dropPre ps cs else none

/-- The literal tag `` ```json `` opening a JSON-marked fenced block. -/
def fencedJsonTag : List Char := "```json".data

/-- The literal fence `` ``` ``. -/
def fenceTag : List Char := "```".data

/-- Whether the closing part `\s*```` `` of the fenced-block regexes matches
here: maximal whitespace run, then a fence. -/
def fenceClose (cs : List Char) : Bool :=
  fenceTag.isPrefixOf (cs.dropWhile isPyWs)

/-- The minimal-match group body of `` (\{.*?\})\s*``` ``, scanning from just
after the opening `{` of the group: the capture ends at the first `}` that
is followed by whitespace and a closing fence (the `.*?` is non-greedy and,
under `re.DOTALL`, matches any characters including newlines and braces).
Returns the characters strictly between the group's braces. -/
def fencedBody : List Char → List Char → Option (List Char)
  | [], _ => none
  | c :: rest, acc =>
    if c = '}' ∧ fenceClose rest then some acc.reverse
    else fencedBody rest (c :: acc)

/-- Match one of the fenced-block regexes at the current position: the given
opening tag, then `\s*`, then the captured `\{.*?\}` group, then `` \s*``` ``.
Returns the captured group (braces included). -/
def fencedAt (tag : List Char) (cs : List Char) : Option (List Char) :=
  match dropPre tag cs with
  | none => none
  | some afterTag =>
    match afterTag.dropWhile isPyWs with
    | '{' :: rest => (fencedBody rest []).map fun inner => '{' :: (inner ++ ['}'])
    | _ => none

/-- `re.search` for a fenced-block pattern: leftmost position at which the
whole pattern matches, scanning left to right. -/
def searchFencedTag (tag : List Char) : List Char → Option (List Char)
  | [] => none
  | c :: rest =>
    match fencedAt tag (c :: rest) with
    | some cap => some cap
    | none => searchFencedTag tag rest

/-- A character other than `{` or `}` (the class `[^{}]`). -/
def isNonBrace (c : Char) : Bool := !(c = '{' || c = '}')

/-- Match `[^{}]*(?:\{[^{}]*\}[^{}]*)*\}` from just after an opening `{`
(the balanced-brace regex supports exactly one level of nesting).  Returns
the characters strictly between the outer braces. -/
def balancedAfterBrace : Nat → List Char → Option (List Char)
  | 0, _ => none
  | Nat.succ fuel, cs =>
    let pre := cs.takeWhile isNonBrace
    match cs.dropWhile isNonBrace with
    | '}' :: _ => some pre
    | '{' :: r1 =>
      let mid := r1.takeWhile isNonBrace
      match r1.dropWhile isNonBrace with
      | '}' :: r3 =>
        (balancedAfterBrace fuel r3).map fun tail => pre ++ '{' :: (mid ++ '}' :: tail)
      | _ => none
    | _ => none

/-- `re.search` for the balanced-brace pattern
`(\{[^{}]*(?:\{[^{}]*\}[^{}]*)*\})`: first `{` from which the pattern
completes.  Returns the captured object span (braces included). -/
def searchBalanced : List Char → Option (List Char)
  | [] => none
  | c :: rest =>
    if c = '{' then
      match balancedAfterBrace (rest.length + 1) rest with
      | some inner => some ('{' :: (inner ++ ['}']))
      | none => searchBalanced rest
    else searchBalanced rest

/-- The last-resort span `text[text.find('{') : text.rfind('}') + 1]`,
provided both `find` and `rfind` succeed (Python slicing yields the empty
string when the last `}` precedes the first `{`). -/
def braceSlice (s : String) : Option String :=
  match s.data.findIdx? (fun c => c = '{'), s.data.reverse.findIdx? (fun c => c = '}') with
  | some i, some rj =>
    let j := s.data.length - 1 - rj
    some (String.mk ((s.data.drop i).take (j + 1 - i)))
  | _, _ => none

/-- The synthetic fallback record built by `_extract_json` when every parse
attempt fails, with its two text excerpts derived from the raw text. -/
def fallbackRecord (text : String) : Json :=
  Json.obj [
    ("summary", Json.str "Analysis completed. Check logs for full details."),
    ("financial_trends", Json.arr [
      Json.obj [
        ("metric", Json.str "General Analysis"),
        ("trend", Json.str "stable"),
        ("percentage_change", Json.num 0),
        ("analysis", Json.str (pyTruncate 200 text))]]),
    ("management_outlook", Json.obj [
      ("sentiment", Json.str "neutral"),
      ("key_statements", Json.arr [Json.str "See raw output for details"]),
      ("strategic_focus", Json.arr [Json.str "Multiple areas"])]),
    ("risks_and_opportunities", Json.arr [
      Json.obj [
        ("type", Json.str "opportunity"),
        ("description", Json.str "Analysis in progress"),
        ("potential_impact", Json.str "medium")]]),
    ("quarterly_forecast", Json.str (pyTruncate 500 text)),
    ("confidence_level", Json.str "medium"),
    ("data_sources_used", Json.arr [Json.str "analysis_tools"])]

/-- `ForecastOrchestrator._extract_json`: the layered recovery cascade.
An `Except.error` value stands for an uncaught exception escaping the
method (the code catches every failure, so no branch produces one):
1. strict parse of the whitespace-stripped text;
2. the three regex patterns in fixed priority (JSON-marked fence, any
   fence, first balanced-brace object), each match given one strict parse,
   falling through on failure;
3. the first-`{`-to-last-`}` span;
4. the synthetic fallback record. -/
def extractJson (text : String) : Except String Json :=
  match jsonLoads (pyStrip text) with
  | some j => Except.ok j
  | none =>
    match (searchFencedTag fencedJsonTag text.data).bind (fun cap => jsonLoads (String.mk cap)) with
    | some j => Except.ok j
    | none =>
      match (searchFencedTag fenceTag text.data).bind (fun cap => jsonLoads (String.mk cap)) with
      | some j => Except.ok j
      | none =>
        match (searchBalanced text.data).bind (fun cap => jsonLoads (String.mk cap)) with
        | some j => Except.ok j
        | none =>
          match (braceSlice text).bind (fun sl => jsonLoads sl) with
          | some j => Except.ok j
          | none => Except.ok (fallbackRecord text)

/-- The seven required top-level fields of a `ForecastRecord`. -/
def requiredForecastFields : List String :=
  ["summary", "financial_trends", "management_outlook", "risks_and_opportunities",
   "quarterly_forecast", "confidence_level", "data_sources_used"]

/-- Whether a JSON value is an object carrying every required
`ForecastRecord` field. -/
def hasAllRequiredFields : Json → Bool
  | Json.obj fields => requiredForecastFields.all fun k => fields.any fun p => p.1 == k
  | _ => false

/-- Field lookup in a JSON object's member list. -/
def lookupField (fields : List (String × Json)) (k : String) : Option Json :=
  (fields.find? fun p => p.1 == k).map fun p => p.2

/-- Whether a JSON value is a string. -/
def isStrJ : Json → Bool
  | Json.str _ => true
  | _ => false

/-- Whether a JSON value is an array of strings. -/
def isStrList : Json → Bool
  | Json.arr xs => xs.all isStrJ
  | _ => false

/-- Spec-side shape of one `financial_trends` entry:
`\x7bmetric, trend ∈ \x7bincreasing,decreasing,stable\x7d, percentage_change: float?,
analysis\x7d`. -/
def specTrendEntry : Json → Bool
  | Json.obj fs =>
    (match lookupField fs "metric" with | some (Json.str _) => true | _ => false) &&
    (match lookupField fs "trend" with
     | some (Json.str s) => s == "increasing" || s == "decreasing" || s == "stable"
     | _ => false) &&
    (match lookupField fs "percentage_change" with
     | some (Json.num _) => true | none => true | _ => false) &&
    (match lookupField fs "analysis" with | some (Json.str _) => true | _ => false)
  | _ => false

/-- Spec-side shape of `management_outlook`. -/
def specOutlook : Json → Bool
  | Json.obj fs =>
    (match lookupField fs "sentiment" with
     | some (Json.str s) => s == "positive" || s == "negative" || s == "neutral"
     | _ => false) &&
    (match lookupField fs "key_statements" with | some v => isStrList v | _ => false) &&
    (match lookupField fs "strategic_focus" with | some v => isStrList v | _ => false)
  | _ => false

/-- Spec-side shape of one `risks_and_opportunities` entry. -/
def specRiskEntry : Json → Bool
  | Json.obj fs =>
    (match lookupField fs "type" with
     | some (Json.str s) => s == "risk" || s == "opportunity"
     | _ => false) &&
    (match lookupField fs "description" with | some (Json.str _) => true | _ => false) &&
    (match lookupField fs "potential_impact" with
     | some (Json.str s) => s == "high" || s == "medium" || s == "low"
     | _ => false)
  | _ => false

/-- The `ForecastRecord` shape, following the specification's data-model
description field for field (a spec-side definition, used to state the
shape hypotheses of the round-trip claims). -/
def specForecastRecordShape : Json → Bool
  | Json.obj fs =>
    (match lookupField fs "summary" with | some (Json.str _) => true | _ => false) &&
    (match lookupField fs "financial_trends" with
     | some (Json.arr xs) => xs.all specTrendEntry | _ => false) &&
    (match lookupField fs "management_outlook" with
     | some v => specOutlook v | _ => false) &&
    (match lookupField fs "risks_and_opportunities" with
     | some (Json.arr xs) => xs.all specRiskEntry | _ => false) &&
    (match lookupField fs "quarterly_forecast" with
     | some (Json.str _) => true | _ => false) &&
    (match lookupField fs "confidence_level" with
     | some (Json.str s) => s == "high" || s == "medium" || s == "low"
     | _ => false) &&
    (match lookupField fs "data_sources_used" with | some v => isStrList v | _ => false)
  | _ => false

/-- Python's `str.lower()` (ASCII range). -/
def pyLower (s : String) : String := String.mk (s.data.map Char.toLower)

/-- Python's substring operator `needle in hay` on character lists. -/
def containsSub : List Char → List Char → Bool
  | [], needle => needle.isEmpty
  | c :: rest, needle => needle.isPrefixOf (c :: rest) || containsSub rest needle

/-- Python's substring operator `needle in hay` on strings. -/
def strContains (hay needle : String) : Bool := containsSub hay.data needle.data

/-- `ForecastOrchestrator._extract_transcript_query`: keyword-based
selection of one of four fixed transcript sub-query templates, evaluated
on the lowercased task with short-circuiting priority. -/
def extractTranscriptQuery (task : String) : String :=
  let taskLower := pyLower task
  if strContains taskLower "ai" || strContains taskLower "artificial intelligence" then
    "What is management\x27s outlook on AI and digital transformation?"
  else if strContains taskLower "outlook" || strContains taskLower "forecast" then
    "What is management\x27s forward-looking guidance and outlook?"
  else if strContains taskLower "risk" then
    "What risks and challenges did management discuss?"
  else
    "What are the key themes and strategic focus areas discussed by management?"

/-- One JSON-escaped character, as emitted by Python's `json.dumps`
(ASCII range). -/
def jsonEscapeChar (c : Char) : String :=
  if c = '"' then "\\\""
  else if c = '\\' then "\\\\"
  else if c = '\n' then "\\n"
  else if c = '\r' then "\\r"
  else if c = '\t' then "\\t"
  else if c = '\x08' then "\\b"
  else if c = '\x0c' then "\\f"
  else if c.toNat < 32 then
    "\\u00" ++ String.mk [Nat.digitChar (c.toNat / 16), Nat.digitChar (c.toNat % 16)]
  else String.mk [c]

/-- Python's `json.dumps` on a list of strings. -/
def jsonDumpsStrList (xs : List String) : String :=
  "[" ++ String.intercalate ", "
    (xs.map fun s => "\"" ++ String.join (s.data.map jsonEscapeChar) ++ "\"") ++ "]"

/-- The synthesis prompt f-string of `generate_forecast`, with the task,
the combined tool context and the `json.dumps`-serialized `tools_used`
list spliced in (the doubled braces of the f-string denote literal
braces). -/
def synthesisPrompt (task combined : String) (toolsUsed : List String) : String :=
  "Based on the following data about TCS, generate a comprehensive forecast.\n\nTask: "
  ++ task ++
  "\n\nAvailable Data:\n" ++ combined ++
  "\n\nGenerate a forecast as a JSON object with this exact structure:\n" ++
  "\x7b\n" ++
  "    \"summary\": \"2-3 sentence executive summary\",\n" ++
  "    \"financial_trends\": [\n" ++
  "        \x7b\n" ++
  "            \"metric\": \"Revenue/Profit/Margin\",\n" ++
  "            \"trend\": \"increasing/decreasing/stable\",\n" ++
  "            \"percentage_change\": 5.2,\n" ++
  "            \"analysis\": \"Brief explanation\"\n" ++
  "        \x7d\n" ++
  "    ],\n" ++
  "    \"management_outlook\": \x7b\n" ++
  "        \"sentiment\": \"positive/negative/neutral\",\n" ++
  "        \"key_statements\": [\"statement1\", \"statement2\"],\n" ++
  "        \"strategic_focus\": [\"focus1\", \"focus2\"]\n" ++
  "    \x7d,\n" ++
  "    \"risks_and_opportunities\": [\n" ++
  "        \x7b\n" ++
  "            \"type\": \"risk\" or \"opportunity\",\n" ++
  "            \"description\": \"Clear description\",\n" ++
  "            \"potential_impact\": \"high/medium/low\"\n" ++
  "        \x7d\n" ++
  "    ],\n" ++
  "    \"quarterly_forecast\": \"Detailed forecast for next quarter\",\n" ++
  "    \"confidence_level\": \"high/medium/low\",\n" ++
  "    \"data_sources_used\": " ++ jsonDumpsStrList toolsUsed ++ "\n" ++
  "\x7d\n\nReturn ONLY the JSON object, no other text."

/-- The orchestrator's external collaborators, each an opaque call that
returns text or raises with a message (`Except.error` standing for a
raised exception): the three tool adapters and the language-model call
(normalized to the response's text content). -/
structure ToolEnv where
  extractFinancialData : String → Except String String
  analyzeTranscripts : String → Except String String
  fetchMarketData : String → Except String String
  llmInvoke : String → Except String String

/-- The value returned by `generate_forecast`. -/
structure ForecastResult where
  forecast : Json
  tools_used : List String
  raw_output : String

/-- Steps 1–3 of `generate_forecast`: run the three tool adapters in fixed
order, each in its own try/except; a success appends the labeled output
and the adapter's identifier, a failure appends the labeled
`Not available` placeholder and no identifier.  Returns
`(tool_outputs, tools_used)`. -/
def toolPhase (env : ToolEnv) (reportsDir task : String) : List String × List String :=
  let s1 : String × List String :=
    match env.extractFinancialData reportsDir with
    | Except.ok t => ("Financial Data:\n" ++ t, ["financial_data_extractor"])
    | Except.error e => ("Financial Data: Not available - " ++ e, [])
  let s2 : String × List String :=
    match env.analyzeTranscripts (extractTranscriptQuery task) with
    | Except.ok t => ("Transcript Analysis:\n" ++ t, ["qualitative_analysis"])
    | Except.error e => ("Transcript Analysis: Not available - " ++ e, [])
  let s3 : String × List String :=
    match env.fetchMarketData "TCS.NS" with
    | Except.ok t => ("Market Data:\n" ++ t, ["market_data"])
    | Except.error e => ("Market Data: Not available - " ++ e, [])
  ([s1.1, s2.1, s3.1], s1.2 ++ s2.2 ++ s3.2)

/-- The prompt `generate_forecast` hands to the model call, as determined
by the tool phase. -/
def builtPrompt (env : ToolEnv) (reportsDir task : String) : String :=
  let phase := toolPhase env reportsDir task
  synthesisPrompt task (String.intercalate "\n\n" phase.1) phase.2

/-- `ForecastOrchestrator.generate_forecast`: the fixed 4-step pipeline.
The outer try/except logs and re-raises, so an exception of the synthesis
step passes through unchanged as `Except.error`. -/
def generateForecast (env : ToolEnv) (reportsDir task : String) :
    Except String ForecastResult :=
  match env.llmInvoke (builtPrompt env reportsDir task) with
  | Except.error e => Except.error e
  | Except.ok outputText =>
    match extractJson outputText with
    | Except.error e => Except.error e
    | Except.ok forecastJson =>
      Except.ok ⟨forecastJson, (toolPhase env reportsDir task).2, outputText⟩

/-- A serialized full `ForecastRecord`, used to witness the round-trip. -/
def sampleRecordText : String :=
  "\x7b\"summary\": \"ok\", \"financial_trends\": [\x7b\"metric\": \"Revenue\", " ++
  "\"trend\": \"stable\", \"percentage_change\": 0, \"analysis\": \"flat\"\x7d], " ++
  "\"management_outlook\": \x7b\"sentiment\": \"neutral\", \"key_statements\": [\"s1\"], " ++
  "\"strategic_focus\": [\"f1\"]\x7d, \"risks_and_opportunities\": [\x7b\"type\": \"risk\", " ++
  "\"description\": \"d\", \"potential_impact\": \"low\"\x7d], " ++
  "\"quarterly_forecast\": \"q\", \"confidence_level\": \"high\", " ++
  "\"data_sources_used\": [\"x\"]\x7d"

/-- The parse of `sampleRecordText`. -/
def sampleRecord : Json := Json.obj [
  ("summary", Json.str "ok"),
  ("financial_trends", Json.arr [Json.obj [
    ("metric", Json.str "Revenue"), ("trend", Json.str "stable"),
    ("percentage_change", Json.num 0), ("analysis", Json.str "flat")]]),
  ("management_outlook", Json.obj [
    ("sentiment", Json.str "neutral"),
    ("key_statements", Json.arr [Json.str "s1"]),
    ("strategic_focus", Json.arr [Json.str "f1"])]),
  ("risks_and_opportunities", Json.arr [Json.obj [
    ("type", Json.str "risk"), ("description", Json.str "d"),
    ("potential_impact", Json.str "low")]]),
  ("quarterly_forecast", Json.str "q"),
  ("confidence_level", Json.str "high"),
  ("data_sources_used", Json.arr [Json.str "x"])]

/-- The four query templates of `_extract_transcript_query`. -/
def aiQuery : String := "What is management\x27s outlook on AI and digital transformation?"

/-- Rule 2's forward-looking-guidance template. -/
def outlookQuery : String := "What is management\x27s forward-looking guidance and outlook?"

/-- Rule 3's risks/challenges template. -/
def riskQuery : String := "What risks and challenges did management discuss?"

/-- The default generic-themes template. -/
def genericQuery : String := "What are the key themes and strategic focus areas discussed by management?"

/-! ## General lemmas about the recovery cascade -/

theorem extractJson_total (t : String) : ∃ j, extractJson t = Except.ok j := by
  unfold extractJson
  repeat' split
  all_goals exact ⟨_, rfl⟩

theorem extractJson_direct {t : String} {j : Json}
    (h : jsonLoads (pyStrip t) = some j) : extractJson t = Except.ok j := by
  simp only [extractJson, h]

theorem extractJson_allFail {t : String}
    (h0 : jsonLoads (pyStrip t) = none)
    (h1 : (searchFencedTag fencedJsonTag t.data).bind
      (fun cap => jsonLoads (String.mk cap)) = none)
    (h2 : (searchFencedTag fenceTag t.data).bind
      (fun cap => jsonLoads (String.mk cap)) = none)
    (h3 : (searchBalanced t.data).bind (fun cap => jsonLoads (String.mk cap)) = none)
    (h4 : (braceSlice t).bind (fun sl => jsonLoads sl) = none) :
    extractJson t = Except.ok (fallbackRecord t) := by
  simp only [extractJson, h0, h1, h2, h3, h4]

/-! ## Claims -/

/-- C1 (corrected at this input): the output-recovery function does not
return a structurally valid `ForecastRecord` for every input — a text that
is itself valid JSON is returned as parsed even when required fields are
missing. -/
theorem c1_counterexample :
    extractJson "\x7b\"a\": \"b\"\x7d" = Except.ok (Json.obj [("a", Json.str "b")]) ∧
    hasAllRequiredFields (Json.obj [("a", Json.str "b")]) = false :=
  ⟨rfl, rfl⟩

/-- C1 (amended): for every input text on which every parse attempt of the
cascade fails, `_extract_json` returns the synthetic fallback record, which
contains every required `ForecastRecord` field (`summary`,
`financial_trends`, `management_outlook`, `risks_and_opportunities`,
`quarterly_forecast`, `confidence_level`, `data_sources_used`). -/
theorem c1_amended_fallback_wellformed (t : String)
    (h0 : jsonLoads (pyStrip t) = none)
    (h1 : (searchFencedTag fencedJsonTag t.data).bind
      (fun cap => jsonLoads (String.mk cap)) = none)
    (h2 : (searchFencedTag fenceTag t.data).bind
      (fun cap => jsonLoads (String.mk cap)) = none)
    (h3 : (searchBalanced t.data).bind (fun cap => jsonLoads (String.mk cap)) = none)
    (h4 : (braceSlice t).bind (fun sl => jsonLoads sl) = none) :
    extractJson t = Except.ok (fallbackRecord t) ∧
    hasAllRequiredFields (fallbackRecord t) = true :=
  ⟨extractJson_allFail h0 h1 h2 h3 h4, rfl⟩

/-- C1 witness: at the concrete braceless input "no structured output",
every hypothesis of the amended claim holds and the fallback record with
all required fields is returned. -/
theorem c1_witness :
    extractJson "no structured output" = Except.ok (fallbackRecord "no structured output") ∧
    hasAllRequiredFields (fallbackRecord "no structured output") = true :=
  c1_amended_fallback_wellformed "no structured output" rfl rfl rfl rfl rfl

/-- C2: for every input string, `_extract_json` terminates normally and
never raises — every failed parse attempt is caught and control falls
through the cascade, so the function always yields an `Except.ok` value
(no branch produces an uncaught exception). -/
theorem c2_extract_json_never_raises (t : String) : ∃ j, extractJson t = Except.ok j :=
  extractJson_total t

/-- C4: a text whose whitespace-trimmed form is valid strict JSON matching
the `ForecastRecord` shape is returned exactly as parsed (round-trip), not
replaced by the fallback. -/
theorem c4_roundtrip (t : String) (j : Json)
    (hparse : jsonLoads (pyStrip t) = some j)
    (hshape : specForecastRecordShape j = true) :
    extractJson t = Except.ok j :=
  extractJson_direct hparse

/-- C4 witness: a concrete serialized `ForecastRecord` parses to the
expected structure, satisfies the spec's shape, and round-trips through
the recovery cascade. -/
theorem c4_witness :
    jsonLoads (pyStrip sampleRecordText) = some sampleRecord ∧
    specForecastRecordShape sampleRecord = true ∧
    extractJson sampleRecordText = Except.ok sampleRecord :=
  ⟨rfl, rfl, c4_roundtrip sampleRecordText sampleRecord rfl rfl⟩

/-- C5: when every parse attempt of the cascade fails, the result is the
synthetic fallback record: fixed summary notice; one `financial_trends`
entry with `trend="stable"`, `percentage_change=0.0` and `analysis` the
first 200 characters of the raw text (unchanged if shorter); neutral
`management_outlook`; one `opportunity`/`medium` entry in
`risks_and_opportunities`; `quarterly_forecast` the first 500 characters;
`confidence_level="medium"`; `data_sources_used=["analysis_tools"]`. -/
theorem c5_fallback_structure (t : String)
    (h0 : jsonLoads (pyStrip t) = none)
    (h1 : (searchFencedTag fencedJsonTag t.data).bind
      (fun cap => jsonLoads (String.mk cap)) = none)
    (h2 : (searchFencedTag fenceTag t.data).bind
      (fun cap => jsonLoads (String.mk cap)) = none)
    (h3 : (searchBalanced t.data).bind (fun cap => jsonLoads (String.mk cap)) = none)
    (h4 : (braceSlice t).bind (fun sl => jsonLoads sl) = none) :
    extractJson t = Except.ok (Json.obj [
      ("summary", Json.str "Analysis completed. Check logs for full details."),
      ("financial_trends", Json.arr [
        Json.obj [
          ("metric", Json.str "General Analysis"),
          ("trend", Json.str "stable"),
          ("percentage_change", Json.num 0),
          ("analysis", Json.str (pyTruncate 200 t))]]),
      ("management_outlook", Json.obj [
        ("sentiment", Json.str "neutral"),
        ("key_statements", Json.arr [Json.str "See raw output for details"]),
        ("strategic_focus", Json.arr [Json.str "Multiple areas"])]),
      ("risks_and_opportunities", Json.arr [
        Json.obj [
          ("type", Json.str "opportunity"),
          ("description", Json.str "Analysis in progress"),
          ("potential_impact", Json.str "medium")]]),
      ("quarterly_forecast", Json.str (pyTruncate 500 t)),
      ("confidence_level", Json.str "medium"),
      ("data_sources_used", Json.arr [Json.str "analysis_tools"])]) :=
  extractJson_allFail h0 h1 h2 h3 h4

/-- C5 witness: the spec's scenario — the braceless raw output
"I cannot comply." yields the fallback with both excerpts equal to the
literal input (length ≤ 200 and ≤ 500). -/
theorem c5_witness :
    extractJson "I cannot comply." = Except.ok (Json.obj [
      ("summary", Json.str "Analysis completed. Check logs for full details."),
      ("financial_trends", Json.arr [
        Json.obj [
          ("metric", Json.str "General Analysis"),
          ("trend", Json.str "stable"),
          ("percentage_change", Json.num 0),
          ("analysis", Json.str "I cannot comply.")]]),
      ("management_outlook", Json.obj [
        ("sentiment", Json.str "neutral"),
        ("key_statements", Json.arr [Json.str "See raw output for details"]),
        ("strategic_focus", Json.arr [Json.str "Multiple areas"])]),
      ("risks_and_opportunities", Json.arr [
        Json.obj [
          ("type", Json.str "opportunity"),
          ("description", Json.str "Analysis in progress"),
          ("potential_impact", Json.str "medium")]]),
      ("quarterly_forecast", Json.str "I cannot comply."),
      ("confidence_level", Json.str "medium"),
      ("data_sources_used", Json.arr [Json.str "analysis_tools"])]) :=
  c5_fallback_structure "I cannot comply." rfl rfl rfl rfl rfl

/-- C10: a whole-string strict JSON parse (after trimming) is returned
exactly, with no schema validation — in particular a bare JSON number is
returned as-is, is no `ForecastRecord`, and the fallback is not used. -/
theorem c10_no_schema_validation :
    (∀ (t : String) (j : Json), jsonLoads (pyStrip t) = some j →
      extractJson t = Except.ok j) ∧
    extractJson "5" = Except.ok (Json.num 5) ∧
    specForecastRecordShape (Json.num 5) = false ∧
    hasAllRequiredFields (Json.num 5) = false :=
  ⟨fun _ _ h => extractJson_direct h, rfl, rfl, rfl⟩

/-- C10 witness: the general clause applied at a JSON array input — the
parsed array is returned although it is not an object. -/
theorem c10_witness :
    extractJson "[1, 2]" = Except.ok (Json.arr [Json.num 1, Json.num 2]) :=
  c10_no_schema_validation.1 "[1, 2]" (Json.arr [Json.num 1, Json.num 2]) rfl

/-- C6: when the text is not itself valid JSON but a fenced code block
(JSON-marked, or — with the JSON-marked pattern not producing a parse —
any fenced block) captures a span that parses, the recovery cascade
returns that parsed object, not the fallback. -/
theorem c6_fenced_extraction (t : String) (j : Json)
    (hdirect : jsonLoads (pyStrip t) = none) :
    ((searchFencedTag fencedJsonTag t.data).bind
        (fun cap => jsonLoads (String.mk cap)) = some j →
      extractJson t = Except.ok j) ∧
    ((searchFencedTag fencedJsonTag t.data).bind
        (fun cap => jsonLoads (String.mk cap)) = none →
     (searchFencedTag fenceTag t.data).bind
        (fun cap => jsonLoads (String.mk cap)) = some j →
      extractJson t = Except.ok j) := by
  constructor
  · intro h1
    simp only [extractJson, hdirect, h1]
  · intro h1 h2
    simp only [extractJson, hdirect, h1, h2]

/-- C6 witness: the spec's scenario — prose followed by a JSON-marked
fenced block yields the parsed inner object. -/
theorem c6_witness :
    extractJson "Sure, here you go:\n```json\n\x7b\"summary\": \"ok\"\x7d\n```" =
      Except.ok (Json.obj [("summary", Json.str "ok")]) :=
  (c6_fenced_extraction "Sure, here you go:\n```json\n\x7b\"summary\": \"ok\"\x7d\n```"
    (Json.obj [("summary", Json.str "ok")]) rfl).1 rfl

/-- C7: the transcript-query selector always returns one of exactly four
fixed templates, chosen by case-insensitive substring match in fixed
priority order with short-circuiting ("ai"/"artificial intelligence"
first, then "outlook"/"forecast", then "risk", else generic); in
particular the task "Analyze AI-driven growth outlook for TCS" gets the
AI template although it also contains "outlook". -/
theorem c7_query_selector :
    (∀ task : String,
      (extractTranscriptQuery task = aiQuery ∨ extractTranscriptQuery task = outlookQuery ∨
       extractTranscriptQuery task = riskQuery ∨ extractTranscriptQuery task = genericQuery) ∧
      ((strContains (pyLower task) "ai" = true ∨
        strContains (pyLower task) "artificial intelligence" = true) →
        extractTranscriptQuery task = aiQuery) ∧
      (strContains (pyLower task) "ai" = false →
       strContains (pyLower task) "artificial intelligence" = false →
       (strContains (pyLower task) "outlook" = true ∨
        strContains (pyLower task) "forecast" = true) →
        extractTranscriptQuery task = outlookQuery) ∧
      (strContains (pyLower task) "ai" = false →
       strContains (pyLower task) "artificial intelligence" = false →
       strContains (pyLower task) "outlook" = false →
       strContains (pyLower task) "forecast" = false →
       strContains (pyLower task) "risk" = true →
        extractTranscriptQuery task = riskQuery) ∧
      (strContains (pyLower task) "ai" = false →
       strContains (pyLower task) "artificial intelligence" = false →
       strContains (pyLower task) "outlook" = false →
       strContains (pyLower task) "forecast" = false →
       strContains (pyLower task) "risk" = false →
        extractTranscriptQuery task = genericQuery)) ∧
    extractTranscriptQuery "Analyze AI-driven growth outlook for TCS" = aiQuery ∧
    strContains (pyLower "Analyze AI-driven growth outlook for TCS") "outlook" = true := by
  refine ⟨fun task => ?_, rfl, rfl⟩
  cases h1 : strContains (pyLower task) "ai" <;>
  cases h2 : strContains (pyLower task) "artificial intelligence" <;>
  cases h3 : strContains (pyLower task) "outlook" <;>
  cases h4 : strContains (pyLower task) "forecast" <;>
  cases h5 : strContains (pyLower task) "risk" <;>
  simp_all [extractTranscriptQuery, aiQuery, outlookQuery, riskQuery, genericQuery]

/-- C7 witness: the priority clause applied to a concrete task matched by
the "artificial intelligence" keyword. -/
theorem c7_witness :
    extractTranscriptQuery "Impact of artificial intelligence" = aiQuery :=
  ((c7_query_selector.1 "Impact of artificial intelligence").2.1) (Or.inr rfl)

/-- C8 (corrected at this input): a task containing "outlook" does not
always get the forward-looking-guidance template — the AI rule fires
first on "Analyze AI-driven growth outlook for TCS". -/
theorem c8_counterexample :
    strContains (pyLower "Analyze AI-driven growth outlook for TCS") "outlook" = true ∧
    extractTranscriptQuery "Analyze AI-driven growth outlook for TCS" ≠ outlookQuery :=
  ⟨rfl, by decide⟩

/-- C8 (amended): a task containing "outlook" (case-insensitively) whose
lowercase form contains neither "ai" nor "artificial intelligence" gets
the forward-looking-guidance template verbatim. -/
theorem c8_amended (task : String)
    (hai : strContains (pyLower task) "ai" = false)
    (hart : strContains (pyLower task) "artificial intelligence" = false)
    (hout : strContains (pyLower task) "outlook" = true) :
    extractTranscriptQuery task = outlookQuery := by
  simp [extractTranscriptQuery, hai, hart, hout, outlookQuery]

/-- C8 witness: a task containing "outlook" and no AI keyword. -/
theorem c8_witness : extractTranscriptQuery "Growth outlook" = outlookQuery :=
  c8_amended "Growth outlook" rfl rfl rfl

/-- C9: an exception of the single model-invocation step of
`generate_forecast` propagates to the caller unchanged (the outer
try/except re-raises), and no partial result is returned. -/
theorem c9_model_failure_propagates (env : ToolEnv) (dir task e : String)
    (h : env.llmInvoke (builtPrompt env dir task) = Except.error e) :
    generateForecast env dir task = Except.error e := by
  simp only [generateForecast, h]

/-- C9 witness: all three tools succeed but the model call raises; the
error surfaces unchanged. -/
theorem c9_witness :
    generateForecast
      ⟨fun _ => Except.ok "fin", fun _ => Except.ok "tr",
       fun _ => Except.ok "mkt", fun _ => Except.error "model down"⟩
      "data/reports" "Analyze TCS" = Except.error "model down" :=
  c9_model_failure_propagates
    ⟨fun _ => Except.ok "fin", fun _ => Except.ok "tr",
     fun _ => Except.ok "mkt", fun _ => Except.error "model down"⟩
    "data/reports" "Analyze TCS" "model down" rfl

/-- C3: a failing tool adapter never aborts the pipeline — its step
contributes the labeled "Not available" placeholder, its identifier stays
out of `tools_used`, and the next step runs; with all three adapters
failing, the model is still invoked on the all-placeholder prompt and
`tools_used` is empty. -/
theorem c3_tool_fault_tolerance :
    (∀ (env : ToolEnv) (dir task e1 : String),
      env.extractFinancialData dir = Except.error e1 →
      (toolPhase env dir task).1.get? 0 =
        some ("Financial Data: Not available - " ++ e1) ∧
      "financial_data_extractor" ∉ (toolPhase env dir task).2) ∧
    (∀ (env : ToolEnv) (dir task e2 : String),
      env.analyzeTranscripts (extractTranscriptQuery task) = Except.error e2 →
      (toolPhase env dir task).1.get? 1 =
        some ("Transcript Analysis: Not available - " ++ e2) ∧
      "qualitative_analysis" ∉ (toolPhase env dir task).2) ∧
    (∀ (env : ToolEnv) (dir task e3 : String),
      env.fetchMarketData "TCS.NS" = Except.error e3 →
      (toolPhase env dir task).1.get? 2 =
        some ("Market Data: Not available - " ++ e3) ∧
      "market_data" ∉ (toolPhase env dir task).2) ∧
    (∀ (env : ToolEnv) (dir task e1 e2 e3 : String),
      env.extractFinancialData dir = Except.error e1 →
      env.analyzeTranscripts (extractTranscriptQuery task) = Except.error e2 →
      env.fetchMarketData "TCS.NS" = Except.error e3 →
      toolPhase env dir task =
        (["Financial Data: Not available - " ++ e1,
          "Transcript Analysis: Not available - " ++ e2,
          "Market Data: Not available - " ++ e3], []) ∧
      builtPrompt env dir task =
        synthesisPrompt task
          (String.intercalate "\n\n"
            ["Financial Data: Not available - " ++ e1,
             "Transcript Analysis: Not available - " ++ e2,
             "Market Data: Not available - " ++ e3]) [] ∧
      generateForecast env dir task =
        (env.llmInvoke (builtPrompt env dir task)).bind
          (fun out => (extractJson out).map
            fun fj => (⟨fj, [], out⟩ : ForecastResult))) := by
  refine ⟨?_, ?_, ?_, ?_⟩
  · intro env dir task e1 h
    refine ⟨by simp [toolPhase, h], ?_⟩
    cases h2 : env.analyzeTranscripts (extractTranscriptQuery task) <;>
    cases h3 : env.fetchMarketData "TCS.NS" <;>
    simp [toolPhase, h, h2, h3]
  · intro env dir task e2 h
    refine ⟨by simp [toolPhase, h], ?_⟩
    cases h1 : env.extractFinancialData dir <;>
    cases h3 : env.fetchMarketData "TCS.NS" <;>
    simp [toolPhase, h, h1, h3]
  · intro env dir task e3 h
    refine ⟨by simp [toolPhase, h], ?_⟩
    cases h1 : env.extractFinancialData dir <;>
    cases h2 : env.analyzeTranscripts (extractTranscriptQuery task) <;>
    simp [toolPhase, h, h1, h2]
  · intro env dir task e1 e2 e3 h1 h2 h3
    have hphase : toolPhase env dir task =
        (["Financial Data: Not available - " ++ e1,
          "Transcript Analysis: Not available - " ++ e2,
          "Market Data: Not available - " ++ e3], []) := by
      simp [toolPhase, h1, h2, h3]
    refine ⟨hphase, by simp [builtPrompt, hphase], ?_⟩
    cases hl : env.llmInvoke (builtPrompt env dir task) with
    | error e => simp [generateForecast, hl, Except.bind]
    | ok out =>
      cases hx : extractJson out with
      | error e => simp [generateForecast, hl, hx, Except.bind, Except.map]
      | ok fj => simp [generateForecast, hl, hx, hphase, Except.bind, Except.map]

/-- C3 witness: a concrete environment in which every adapter raises and
the model returns braceless text — the pipeline completes, `tools_used`
is empty, and the recovered forecast is the fallback record. -/
theorem c3_witness :
    generateForecast
      ⟨fun _ => Except.error "E1", fun _ => Except.error "E2",
       fun _ => Except.error "E3", fun _ => Except.ok "no json"⟩
      "data/reports" "some task" =
      Except.ok ⟨fallbackRecord "no json", [], "no json"⟩ :=
  ((c3_tool_fault_tolerance.2.2.2
      ⟨fun _ => Except.error "E1", fun _ => Except.error "E2",
       fun _ => Except.error "E3", fun _ => Except.ok "no json"⟩
      "data/reports" "some task" "E1" "E2" "E3" rfl rfl rfl).2.2).trans (by rfl)

end TcsForecast
